import Mathlib

/-!
Shallow embedding of `src/vhr_parser/file_parser.py` (class `FileParser`),
the nested binary container decoder of the vhr_parser repository, together
with theorems checking the design document's claims against it.

Modelling conventions:
* a byte buffer (an `mmap` view, a `bytes` object, a `memoryview`) is a
  `List Nat` of byte values;
* Python slicing `s[a:b]` (which clamps out-of-range bounds) is `pySlice`;
* `struct.unpack(">I", ...)` / `struct.unpack(">H", ...)` on an exact-size
  slice is `readBE` applied to that slice (big-endian accumulation);
* the gzip decompressor is an explicit function parameter `gz`, since its
  behaviour is external to the repository; `gz0` (the identity) is used as a
  concrete decompressor in closed evaluations, standing for inputs whose
  compressed spans are taken verbatim;
* Python dynamic-typing failures are modelled where they occur:
  `header[:18].encode("ascii")` in `parse_layer1` is called on a memoryview
  (or bytes) slice, which has no `encode` method, so `parseLayer1` returns
  the raised `AttributeError` (`Except.error`); the intended decoding those
  lines describe lives in the spec-modelled `parseLayer1Spec`;
* each `while offset + H <= len(...)` generator loop is realized by
  structural recursion on a fuel that strictly exceeds the number of
  possible iterations (`s.length + 1`), so the loop guard, never the fuel,
  is what terminates the scan; fuel-irrelevance lemmas below make the
  loop-step equations available at any sufficient fuel.
-/

/-- Python slice `s[a:b]` for `a ≤ b`: drops `a` bytes, takes at most
`b - a`; like Python, it clamps silently when `b` exceeds the length. -/
def pySlice (s : List Nat) (a b : Nat) : List Nat :=
  (s.drop a).take (b - a)

/-- Value of `struct.unpack(">I", bs)` / `struct.unpack(">H", bs)`:
big-endian interpretation of a byte list. -/
def readBE (bs : List Nat) : Nat :=
  bs.foldl (fun acc b => acc * 256 + b) 0

/-- Generic body shared verbatim (up to the three constants) by
`parse_layer2` (hs=16, lo=14, lw=2), `parse_layer3` (hs=8, lo=4, lw=4) and
`parse_layer4` (hs=4, lo=2, lw=2) in `file_parser.py`:

    while offset + hs <= len(s):
        header = s[offset : offset + hs]
        if len(header) < hs: break
        (data_len,) = struct.unpack(be, header[lo : lo + lw])
        payload = s[offset + hs : offset + hs + data_len]
        yield header, payload
        offset += hs + data_len

The fuel argument only realizes the loop as structural recursion; wrappers
instantiate it with `s.length + 1`, which the guard makes sufficient. -/
def parseFramed (hs lo lw : Nat) : Nat → List Nat → Nat → List (List Nat × List Nat)
  | 0, _, _ => []
  | fuel + 1, s, offset =>
    if offset + hs ≤ s.length then
      let header := pySlice s offset (offset + hs)
      if header.length < hs then []
      else
        let dataLen := readBE (pySlice header lo (lo + lw))
        let payload := pySlice s (offset + hs) (offset + hs + dataLen)
        (header, payload) :: parseFramed hs lo lw fuel s (offset + hs + dataLen)
    else []

/-- Method `FileParser.parse_layer2` (lines 63-81): 16-byte header,
2-byte big-endian length at header offset 14. -/
def parseLayer2 (s : List Nat) (offset : Nat) : List (List Nat × List Nat) :=
  parseFramed 16 14 2 (s.length + 1) s offset

/-- Method `FileParser.parse_layer3` (lines 83-100): 8-byte header,
4-byte big-endian length at header offset 4. -/
def parseLayer3 (s : List Nat) (offset : Nat) : List (List Nat × List Nat) :=
  parseFramed 8 4 4 (s.length + 1) s offset

/-- Method `FileParser.parse_layer4` (lines 102-118): 4-byte header,
2-byte big-endian length at header offset 2. -/
def parseLayer4 (s : List Nat) (offset : Nat) : List (List Nat × List Nat) :=
  parseFramed 4 2 2 (s.length + 1) s offset

/-- Error kinds of the design document, section 7 — `ioError` (open, map or
write failures), `corruptSegment` (decompression failures), `decodeError`
(external-decoder failures) — together with `attributeError`, the Python
`AttributeError` that `parse_layer1` raises at line 50 (see `parseLayer1`). -/
inductive Err
  | ioError
  | corruptSegment
  | decodeError
  | attributeError
deriving DecidableEq

/-- Modelled from the spec (section 4.2, L1 row): the intended L1 decoding
that the source's `parse_layer1` never reaches — 35-byte header, source id
is the first 18 header bytes (ASCII), 4-byte big-endian length at header
offset 31, the declared compressed span decompressed by `gz` before being
yielded. These are exactly the operations written on lines 52-61 of
`parse_layer1`, unreachable in the source because line 50 raises first
(see `parseLayer1`); fueled loop body. -/
def parseLayer1SpecFuel (gz : List Nat → List Nat) :
    Nat → List Nat → Nat → List (List Nat × List Nat)
  | 0, _, _ => []
  | fuel + 1, s, offset =>
    if offset + 35 ≤ s.length then
      let header := pySlice s offset (offset + 35)
      if header.length < 35 then []
      else
        let vid := header.take 18
        let dataLen := readBE (pySlice header 31 35)
        let compData := pySlice s (offset + 35) (offset + 35 + dataLen)
        (vid, gz compData) :: parseLayer1SpecFuel gz fuel s (offset + 35 + dataLen)
    else []

/-- Modelled from the spec (section 4.2, L1 row): the intended L1 decoder,
entered at offset 0 by the composition of section 4.3. -/
def parseLayer1Spec (gz : List Nat → List Nat) (s : List Nat) (offset : Nat) :
    List (List Nat × List Nat) :=
  parseLayer1SpecFuel gz (s.length + 1) s offset

/-- Method `FileParser.parse_layer1` (lines 38-61) as the source actually
executes: the loop guard `offset + 35 <= total_length` admits a complete
35-byte header, after which line 50 evaluates `header[:18].encode("ascii")`.
`header` is a slice of the `memoryview` passed in (line 134), and a
memoryview slice is a memoryview, which has no `encode` method (nor does
`bytes`), so the generator raises `AttributeError` before its first yield.
Hence the scan yields no records on any input: it ends cleanly when no
complete header fits (fewer than 35 bytes past the offset) and raises at
the first complete header; the rest of the loop body (lines 52-61: length
field, compressed span, gzip decompression, yield, offset advance — see
`parseLayer1SpecFuel`) is unreachable. -/
def parseLayer1 (s : List Nat) (offset : Nat) :
    Except Err (List (List Nat × List Nat)) :=
  if offset + 35 ≤ s.length then Except.error Err.attributeError
  else Except.ok []

/-- Records a generator produced before ending or raising: for the embedded
`parse_layer1`, an `AttributeError` is raised before the first yield, so
nothing was yielded on the error path. -/
def yielded {α : Type} : Except Err (List α) → List α
  | Except.ok l => l
  | Except.error _ => []

/-- Concrete decompressor used in closed evaluations: the identity,
representing inputs whose compressed span is taken verbatim. -/
def gz0 : List Nat → List Nat := fun l => l

/-- Behaviour of `parse_layer3` when `extract_frames` (lines 120-126) passes
it the loop variable `frame_seqs` (or `frame_seq`): those `for` targets are
not destructured, so each is the whole 2-tuple `(header, payload)` yielded
by the inner generator. Python's `len` of a 2-tuple is `2`, so the loop
guard `offset + 8 <= len(...)` is `8 <= 2`, false on its first test, and
the generator body never runs: no record is produced. The element type is
fixed as a pair so that the (never-reached) nested iteration in
`extract_frames` typechecks; no element of it ever exists. -/
def parseLayer3Tuple (_p : List Nat × List Nat) : List (List Nat × List Nat) :=
  []

/-- Method `FileParser.extract_frames` (lines 120-126), translated exactly
as written: the outer loop drives `parse_layer1`, whose `AttributeError`
(raised at the first complete L1 header, before gzip decompression is ever
reached) propagates out of the generator; when `parse_layer1` ends cleanly
instead (no complete header), the `for frame_seqs in parse_layer2(...)` and
`for frame_seq in parse_layer3(frame_seqs)` targets bind whole
`(header, payload)` tuples, and both inner calls invoke `parse_layer3`
(never `parse_layer4`), so the two inner generators run on 2-tuples and
produce nothing. -/
def extractFrames (s : List Nat) :
    Except Err (List (List Nat × (List Nat × List Nat))) :=
  match parseLayer1 s 0 with
  | Except.error e => Except.error e
  | Except.ok l1s =>
    Except.ok (l1s.flatMap (fun l1 =>
      (parseLayer2 l1.2 0).flatMap (fun frame_seqs =>
        (parseLayer3Tuple frame_seqs).flatMap (fun frame_seq =>
          (parseLayer3Tuple frame_seq).map (fun frame => (l1.1, frame))))))

/-- Modelled from the spec (section 4.3): the intended frame-extraction
composition, "for each L1 record, for each L2 record drawn from its
decompressed payload, for each L3 record drawn from that payload, for each
L4 record drawn from that payload, yield (source_id, L4_payload)", with
each loop target destructured into header and payload and L1 decoded as
section 4.2 prescribes (`parseLayer1Spec`). -/
def extractFramesSpec (gz : List Nat → List Nat) (s : List Nat) :
    List (List Nat × List Nat) :=
  (parseLayer1Spec gz s 0).flatMap (fun l1 =>
    (parseLayer2 l1.2 0).flatMap (fun l2 =>
      (parseLayer3 l2.2 0).flatMap (fun l3 =>
        (parseLayer4 l3.2 0).map (fun l4 => (l1.1, l4.2)))))

/-- Frame used in the concrete C1 buffer: the four bytes 0xDE 0xAD 0xBE 0xEF. -/
def c1frame : List Nat := [222, 173, 190, 239]

/-- Concrete well-formed buffer for C1, one record per layer, decompressor
taken as the identity `gz0`: an L1 record (18-byte source id of ASCII "A"s,
13 filler bytes, declared length 32) wrapping one L2 record (14 filler
bytes, declared length 16) wrapping one L3 record (4 filler bytes, declared
length 8) wrapping one L4 record (2 filler bytes, declared length 4) whose
payload is `c1frame`. -/
def c1buf : List Nat :=
  List.replicate 18 65 ++ List.replicate 13 0 ++ [0, 0, 0, 32]
    ++ (List.replicate 14 0 ++ [0, 16]
      ++ ([0, 0, 0, 0, 0, 0, 0, 8]
        ++ ([0, 0, 0, 4] ++ c1frame)))

/-- Source id of the single L1 record of `c1buf`. -/
def c1vid : List Nat := List.replicate 18 65

/-- Concrete truncated L2 buffer: a full 16-byte header declaring a 5-byte
payload, followed by a single remaining byte. -/
def c2buf : List Nat := List.replicate 14 0 ++ [0, 5] ++ [9]

/-- Concrete well-formed single-record buffers for the C3 witness. -/
def c3buf1 : List Nat :=
  List.replicate 18 65 ++ List.replicate 13 0 ++ [0, 0, 0, 2] ++ [7, 8]

def c3buf2 : List Nat := List.replicate 14 0 ++ [0, 3] ++ [1, 2, 3]

def c3buf3 : List Nat := [0, 0, 0, 0, 0, 0, 0, 2] ++ [4, 5]

def c3buf4 : List Nat := [0, 0, 0, 1] ++ [6]

/-- Filesystem path split as pathlib sees it: parent directory components,
final-component stem, and extension (without the dot). -/
structure FPath where
  dirs : List String
  stem : String
  ext : String
deriving DecidableEq

/-- Output path computed by `process_file` (lines 144-156):
`relative_path = file_path.relative_to(input_dir)`, then
`out_file = output_dir / relative_path`, then
`out_file = out_file.with_suffix(".parquet")`. Dropping the input root's
component count models `relative_to` for files discovered under that root. -/
def outputFileFor (inputDir outputDir : List String) (p : FPath) : FPath :=
  { dirs := outputDir ++ p.dirs.drop inputDir.length, stem := p.stem, ext := "parquet" }

/-- Row-accumulation loop of `process_file` (lines 136-141): for each
extracted `(vid, frame)`, call `dbc_parser.decode_frame(vid, frame)` and
extend `all_rows` with the returned rows, in extraction order; a raised
decode error aborts the loop and discards the partial accumulation. -/
def collectRows {ρ : Type} (decode : List Nat → (List Nat × List Nat) → Except Err (List ρ)) :
    List (List Nat × (List Nat × List Nat)) → Except Err (List ρ)
  | [] => Except.ok []
  | f :: rest =>
    match decode f.1 f.2 with
    | Except.error e => Except.error e
    | Except.ok rows =>
      match collectRows decode rest with
      | Except.error e => Except.error e
      | Except.ok more => Except.ok (rows ++ more)

/-- Observable outcome of one `process_file` call: the returned path or the
propagated error, what was written (path and rows) if `write_parquet` ran
to completion, and whether `mm_view.release()` / `mm.close()` executed. -/
structure ProcResult (ρ : Type) where
  result : Except Err FPath
  written : Option (FPath × List ρ)
  released : Bool

/-- Method `FileParser.process_file` (lines 131-168). Parameters isolate
the external effects: `mmapRes` is the outcome of `mmap_file`, `decode`
the external frame decoder, `writeRes` the parquet writer's outcome.
Control flow follows the source exactly: there is no try/finally, so any
propagated exception (mmap failure aside, where nothing was acquired) —
the `AttributeError` escaping `extract_frames`, a decode failure, or a
write failure — leaves the mapping unreleased; `mm_view.release()` and
`mm.close()` run only after a successful `write_parquet`
(lines 161-166). -/
def processFile {ρ : Type}
    (decode : List Nat → (List Nat × List Nat) → Except Err (List ρ))
    (inputDir outputDir : List String) (filePath : FPath)
    (mmapRes : Except Err (List Nat))
    (writeRes : FPath → List ρ → Except Err Unit) : ProcResult ρ :=
  match mmapRes with
  | Except.error e => { result := Except.error e, written := none, released := false }
  | Except.ok buf =>
    match extractFrames buf with
    | Except.error e => { result := Except.error e, written := none, released := false }
    | Except.ok frames =>
      match collectRows decode frames with
      | Except.error e => { result := Except.error e, written := none, released := false }
      | Except.ok rows =>
        let outFile := outputFileFor inputDir outputDir filePath
        match writeRes outFile rows with
        | Except.error e => { result := Except.error e, written := none, released := false }
        | Except.ok _ =>
          { result := Except.ok outFile, written := some (outFile, rows), released := true }

/-- Observable events of the `process_directory` result loop
(lines 173-194): the empty-input message, a `pbar.update(1)`, the
per-file success and failure prints, and `pbar.close()`. -/
inductive Event
  | noFilesMsg
  | progress
  | doneMsg (f : FPath) (out : FPath)
  | failMsg (f : FPath) (e : Err)
  | closeBar
deriving DecidableEq

/-- Body of the `for future in as_completed(...)` loop (lines 183-192) for
one completed file: on success, `pbar.update(1)` then the completion print;
on a raised exception, only the failure print (`except Exception` catches
it, the loop continues). -/
def reportStep (fr : FPath × Except Err FPath) : List Event :=
  match fr.2 with
  | Except.ok out => [Event.progress, Event.doneMsg fr.1 out]
  | Except.error e => [Event.failMsg fr.1 e]

/-- Method `FileParser.process_directory` (lines 173-194), as the event
trace it emits given the per-file outcomes `rs` in completion order: the
no-files message when nothing was found, one `reportStep` per completed
future, and the `finally: pbar.close()`. -/
def processDirectory (rs : List (FPath × Except Err FPath)) : List Event :=
  (if rs.isEmpty then [Event.noFilesMsg] else []) ++ rs.flatMap reportStep ++ [Event.closeBar]

def isFileReport : Event → Bool
  | Event.doneMsg _ _ => true
  | Event.failMsg _ _ => true
  | _ => false

/-- Per-file completion reports (success or failure prints) of a run. -/
def fileReports (rs : List (FPath × Except Err FPath)) : List Event :=
  (processDirectory rs).filter isFileReport

def isProgress : Event → Bool
  | Event.progress => true
  | _ => false

/-- Expected report for one completed file. -/
def reportOf (fr : FPath × Except Err FPath) : Event :=
  match fr.2 with
  | Except.ok out => Event.doneMsg fr.1 out
  | Except.error e => Event.failMsg fr.1 e

/-- Concrete input file path used in closed evaluations. -/
def pIn : FPath := { dirs := ["in", "sub"], stem := "a", ext := "bin" }

/-- Success test on one completed file's outcome. -/
def succeeded (fr : FPath × Except Err FPath) : Bool :=
  match fr.2 with
  | Except.ok _ => true
  | Except.error _ => false

/-- Concrete external decoder for closed evaluations: decodes every frame
to zero rows. -/
def dec0 : List Nat → (List Nat × List Nat) → Except Err (List Nat) :=
  fun _ _ => Except.ok []

/-- Concrete writer outcome for closed evaluations: the write succeeds. -/
def wOk : FPath → List Nat → Except Err Unit :=
  fun _ _ => Except.ok ()

/-- Concrete writer outcome for closed evaluations: `write_parquet` raises
an I/O error. -/
def wFail : FPath → List Nat → Except Err Unit :=
  fun _ _ => Except.error Err.ioError

theorem pySlice_length (s : List Nat) (a b : Nat) :
    (pySlice s a b).length = min (b - a) (s.length - a) := by
  simp [pySlice]

theorem pySlice_drop (s : List Nat) (a b : Nat) (h : s.length ≤ b) :
    pySlice s a b = s.drop a := by
  unfold pySlice
  apply List.take_of_length_le
  rw [List.length_drop]
  omega

theorem parseFramed_fuel_irrel (hs lo lw : Nat) (hhs : 0 < hs) :
    ∀ fuel₁ fuel₂ s offset, s.length + 1 ≤ fuel₁ + offset →
      s.length + 1 ≤ fuel₂ + offset →
      parseFramed hs lo lw fuel₁ s offset = parseFramed hs lo lw fuel₂ s offset := by
  intro fuel₁
  induction fuel₁ with
  | zero =>
    intro fuel₂ s offset h1 h2
    cases fuel₂ with
    | zero => rfl
    | succ k =>
      show [] = parseFramed hs lo lw (k + 1) s offset
      simp only [parseFramed]
      rw [if_neg (by omega)]
  | succ n ih =>
    intro fuel₂ s offset h1 h2
    cases fuel₂ with
    | zero =>
      show parseFramed hs lo lw (n + 1) s offset = []
      simp only [parseFramed]
      rw [if_neg (by omega)]
    | succ k =>
      simp only [parseFramed]
      by_cases hg : offset + hs ≤ s.length
      · rw [if_pos hg, if_pos hg]
        have ih' := ih k s
          (offset + hs + readBE (pySlice (pySlice s offset (offset + hs)) lo (lo + lw)))
          (by omega) (by omega)
        rw [ih']
      · rw [if_neg hg, if_neg hg]

theorem parseFramed_step (hs lo lw : Nat) (hhs : 0 < hs) (fuel : Nat) (s : List Nat)
    (offset : Nat) (hf : s.length + 1 ≤ fuel + offset) :
    parseFramed hs lo lw fuel s offset =
      if offset + hs ≤ s.length then
        (pySlice s offset (offset + hs),
          pySlice s (offset + hs)
            (offset + hs + readBE (pySlice (pySlice s offset (offset + hs)) lo (lo + lw))))
          :: parseFramed hs lo lw fuel s
              (offset + hs + readBE (pySlice (pySlice s offset (offset + hs)) lo (lo + lw)))
      else [] := by
  cases fuel with
  | zero =>
    show [] = _
    rw [if_neg (by omega)]
  | succ n =>
    conv_lhs => simp only [parseFramed]
    by_cases hg : offset + hs ≤ s.length
    · rw [if_pos hg, if_pos hg]
      have hhl : ¬ (pySlice s offset (offset + hs)).length < hs := by
        rw [pySlice_length]; omega
      rw [if_neg hhl]
      have := parseFramed_fuel_irrel hs lo lw hhs n (n + 1) s
        (offset + hs + readBE (pySlice (pySlice s offset (offset + hs)) lo (lo + lw)))
        (by omega) (by omega)
      rw [this]
    · rw [if_neg hg, if_neg hg]

theorem parseLayer2_step (s : List Nat) (offset : Nat) :
    parseLayer2 s offset =
      if offset + 16 ≤ s.length then
        (pySlice s offset (offset + 16),
          pySlice s (offset + 16)
            (offset + 16 + readBE (pySlice (pySlice s offset (offset + 16)) 14 16)))
          :: parseLayer2 s
              (offset + 16 + readBE (pySlice (pySlice s offset (offset + 16)) 14 16))
      else [] := by
  unfold parseLayer2
  rw [parseFramed_step 16 14 2 (by norm_num) _ _ _ (by omega)]

theorem parseLayer3_step (s : List Nat) (offset : Nat) :
    parseLayer3 s offset =
      if offset + 8 ≤ s.length then
        (pySlice s offset (offset + 8),
          pySlice s (offset + 8)
            (offset + 8 + readBE (pySlice (pySlice s offset (offset + 8)) 4 8)))
          :: parseLayer3 s
              (offset + 8 + readBE (pySlice (pySlice s offset (offset + 8)) 4 8))
      else [] := by
  unfold parseLayer3
  rw [parseFramed_step 8 4 4 (by norm_num) _ _ _ (by omega)]

theorem parseLayer4_step (s : List Nat) (offset : Nat) :
    parseLayer4 s offset =
      if offset + 4 ≤ s.length then
        (pySlice s offset (offset + 4),
          pySlice s (offset + 4)
            (offset + 4 + readBE (pySlice (pySlice s offset (offset + 4)) 2 4)))
          :: parseLayer4 s
              (offset + 4 + readBE (pySlice (pySlice s offset (offset + 4)) 2 4))
      else [] := by
  unfold parseLayer4
  rw [parseFramed_step 4 2 2 (by norm_num) _ _ _ (by omega)]

theorem parseLayer1SpecFuel_irrel (gz : List Nat → List Nat) :
    ∀ fuel₁ fuel₂ s offset, s.length + 1 ≤ fuel₁ + offset →
      s.length + 1 ≤ fuel₂ + offset →
      parseLayer1SpecFuel gz fuel₁ s offset = parseLayer1SpecFuel gz fuel₂ s offset := by
  intro fuel₁
  induction fuel₁ with
  | zero =>
    intro fuel₂ s offset h1 h2
    cases fuel₂ with
    | zero => rfl
    | succ k =>
      show [] = parseLayer1SpecFuel gz (k + 1) s offset
      simp only [parseLayer1SpecFuel]
      rw [if_neg (by omega)]
  | succ n ih =>
    intro fuel₂ s offset h1 h2
    cases fuel₂ with
    | zero =>
      show parseLayer1SpecFuel gz (n + 1) s offset = []
      simp only [parseLayer1SpecFuel]
      rw [if_neg (by omega)]
    | succ k =>
      simp only [parseLayer1SpecFuel]
      by_cases hg : offset + 35 ≤ s.length
      · rw [if_pos hg, if_pos hg]
        have ih' := ih k s
          (offset + 35 + readBE (pySlice (pySlice s offset (offset + 35)) 31 35))
          (by omega) (by omega)
        rw [ih']
      · rw [if_neg hg, if_neg hg]

theorem parseLayer1SpecFuel_step (gz : List Nat → List Nat) (fuel : Nat) (s : List Nat)
    (offset : Nat) (hf : s.length + 1 ≤ fuel + offset) :
    parseLayer1SpecFuel gz fuel s offset =
      if offset + 35 ≤ s.length then
        ((pySlice s offset (offset + 35)).take 18,
          gz (pySlice s (offset + 35)
            (offset + 35 + readBE (pySlice (pySlice s offset (offset + 35)) 31 35))))
          :: parseLayer1SpecFuel gz fuel s
              (offset + 35 + readBE (pySlice (pySlice s offset (offset + 35)) 31 35))
      else [] := by
  cases fuel with
  | zero =>
    show [] = _
    rw [if_neg (by omega)]
  | succ n =>
    conv_lhs => simp only [parseLayer1SpecFuel]
    by_cases hg : offset + 35 ≤ s.length
    · rw [if_pos hg, if_pos hg]
      have hhl : ¬ (pySlice s offset (offset + 35)).length < 35 := by
        rw [pySlice_length]; omega
      rw [if_neg hhl]
      have := parseLayer1SpecFuel_irrel gz n (n + 1) s
        (offset + 35 + readBE (pySlice (pySlice s offset (offset + 35)) 31 35))
        (by omega) (by omega)
      rw [this]
    · rw [if_neg hg, if_neg hg]

theorem parseLayer1Spec_step (gz : List Nat → List Nat) (s : List Nat) (offset : Nat) :
    parseLayer1Spec gz s offset =
      if offset + 35 ≤ s.length then
        ((pySlice s offset (offset + 35)).take 18,
          gz (pySlice s (offset + 35)
            (offset + 35 + readBE (pySlice (pySlice s offset (offset + 35)) 31 35))))
          :: parseLayer1Spec gz s
              (offset + 35 + readBE (pySlice (pySlice s offset (offset + 35)) 31 35))
      else [] := by
  unfold parseLayer1Spec
  rw [parseLayer1SpecFuel_step gz _ _ _ (by omega)]

theorem extractFrames_eq (s : List Nat) :
    extractFrames s = if 0 + 35 ≤ s.length then Except.error Err.attributeError
      else Except.ok [] := by
  unfold extractFrames parseLayer1
  by_cases h : 0 + 35 ≤ s.length
  · rw [if_pos h, if_pos h]
  · rw [if_neg h, if_neg h]
    rfl

/-- C1: the claim states that `extract_frames` yields exactly the
composition of the four layer decoders. It does not: `extract_frames`
produces no frames on any input — on a buffer holding a complete L1 header
it raises the `AttributeError` propagated from `parse_layer1` (line 50),
and on a shorter buffer it ends without yielding (beyond that point its
L2/L3 loop targets bind whole (header, payload) tuples, over which the
misapplied `parse_layer3` iterates zero times, and `parse_layer4` is never
invoked) — while the intended four-layer composition applied to the
well-formed buffer `c1buf` yields the single frame `(c1vid, c1frame)`. -/
theorem c1_extract_frames_diverges_from_four_layer_composition :
    (∀ s, extractFrames s = if 0 + 35 ≤ s.length then Except.error Err.attributeError
        else Except.ok [])
      ∧ extractFramesSpec gz0 c1buf = [(c1vid, c1frame)] :=
  ⟨extractFrames_eq, by decide⟩

/-- C2 counterexample: on `c2buf`, whose last (and only) record declares 5
payload bytes while only 1 remains, `parse_layer2` does not stop before the
record: it yields the record with its payload silently clamped by Python
slicing to the single remaining byte, which is shorter than the declared
length. -/
theorem c2_truncated_record_is_yielded :
    parseLayer2 c2buf 0 ≠ []
      ∧ parseLayer2 c2buf 0 = [(List.replicate 14 0 ++ [0, 5], [9])]
      ∧ readBE (pySlice (pySlice c2buf 0 16) 14 16) = 5
      ∧ ([9] : List Nat).length < 5 := by decide

/-- C2 amended: when the layer guard admits the header but the declared
payload length exceeds the remaining bytes, each of the length-prefixed
decoders (L2, L3, L4) yields that final record with its payload truncated
to exactly the bytes that remain (strictly shorter than declared) and then
stops; no error is raised (the model is total). -/
theorem c2_amended_truncation_yields_short_final_record :
    (∀ s offset, offset + 16 ≤ s.length →
      s.length < offset + 16 + readBE (pySlice (pySlice s offset (offset + 16)) 14 16) →
      parseLayer2 s offset = [(pySlice s offset (offset + 16), s.drop (offset + 16))]
        ∧ (s.drop (offset + 16)).length
            < readBE (pySlice (pySlice s offset (offset + 16)) 14 16))
    ∧ (∀ s offset, offset + 8 ≤ s.length →
      s.length < offset + 8 + readBE (pySlice (pySlice s offset (offset + 8)) 4 8) →
      parseLayer3 s offset = [(pySlice s offset (offset + 8), s.drop (offset + 8))]
        ∧ (s.drop (offset + 8)).length
            < readBE (pySlice (pySlice s offset (offset + 8)) 4 8))
    ∧ (∀ s offset, offset + 4 ≤ s.length →
      s.length < offset + 4 + readBE (pySlice (pySlice s offset (offset + 4)) 2 4) →
      parseLayer4 s offset = [(pySlice s offset (offset + 4), s.drop (offset + 4))]
        ∧ (s.drop (offset + 4)).length
            < readBE (pySlice (pySlice s offset (offset + 4)) 2 4)) := by
  refine ⟨?_, ?_, ?_⟩
  · intro s offset hg hov
    have hpay : pySlice s (offset + 16)
        (offset + 16 + readBE (pySlice (pySlice s offset (offset + 16)) 14 16))
        = s.drop (offset + 16) := pySlice_drop s _ _ (by omega)
    refine ⟨?_, by rw [List.length_drop]; omega⟩
    rw [parseLayer2_step s offset, if_pos hg, hpay]
    rw [parseLayer2_step s _, if_neg (by omega)]
  · intro s offset hg hov
    have hpay : pySlice s (offset + 8)
        (offset + 8 + readBE (pySlice (pySlice s offset (offset + 8)) 4 8))
        = s.drop (offset + 8) := pySlice_drop s _ _ (by omega)
    refine ⟨?_, by rw [List.length_drop]; omega⟩
    rw [parseLayer3_step s offset, if_pos hg, hpay]
    rw [parseLayer3_step s _, if_neg (by omega)]
  · intro s offset hg hov
    have hpay : pySlice s (offset + 4)
        (offset + 4 + readBE (pySlice (pySlice s offset (offset + 4)) 2 4))
        = s.drop (offset + 4) := pySlice_drop s _ _ (by omega)
    refine ⟨?_, by rw [List.length_drop]; omega⟩
    rw [parseLayer4_step s offset, if_pos hg, hpay]
    rw [parseLayer4_step s _, if_neg (by omega)]

/-- C2 amended, witnessed at the concrete truncated buffer `c2buf`. -/
theorem c2_amended_witness :
    (0 + 16 ≤ c2buf.length)
      ∧ (c2buf.length < 0 + 16 + readBE (pySlice (pySlice c2buf 0 (0 + 16)) 14 16))
      ∧ (parseLayer2 c2buf 0 = [(pySlice c2buf 0 (0 + 16), c2buf.drop (0 + 16))]
          ∧ (c2buf.drop (0 + 16)).length
              < readBE (pySlice (pySlice c2buf 0 (0 + 16)) 14 16)) :=
  ⟨by decide, by decide,
    c2_amended_truncation_yields_short_final_record.1 c2buf 0 (by decide) (by decide)⟩

/-- C3: the claim covers all four layer decoders. For L2, L3, L4 it holds:
every record whose declared payload fits in the remaining span has payload
length equal to the big-endian field at the layer's fixed header offset
(14+2, 4+4, 2+2), and the scan of the next record begins exactly at record
offset + header size + payload length. For L1 the code is wrong: at a
complete 35-byte header — witnessed here by the well-formed, fitting record
of `c3buf1` — `parse_layer1` raises `AttributeError` (line 50) before its
first yield, so no L1 record with the declared-length span is ever
produced; the intended L1 decoding (`parseLayer1Spec`, spec section 4.2,
4-byte big-endian field at header offset 31, the declared span being the
compressed block handed to the decompressor) does satisfy the property. -/
theorem c3_declared_length_and_next_offset :
    parseLayer1 c3buf1 0 = Except.error Err.attributeError
    ∧ (∀ (gz : List Nat → List Nat) s offset, offset + 35 ≤ s.length →
      offset + 35 + readBE (pySlice (pySlice s offset (offset + 35)) 31 35) ≤ s.length →
      parseLayer1Spec gz s offset
          = ((pySlice s offset (offset + 35)).take 18,
              gz (pySlice s (offset + 35)
                (offset + 35 + readBE (pySlice (pySlice s offset (offset + 35)) 31 35))))
            :: parseLayer1Spec gz s
                (offset + 35 + readBE (pySlice (pySlice s offset (offset + 35)) 31 35))
        ∧ (pySlice s (offset + 35)
            (offset + 35 + readBE (pySlice (pySlice s offset (offset + 35)) 31 35))).length
            = readBE (pySlice (pySlice s offset (offset + 35)) 31 35))
    ∧ (∀ s offset, offset + 16 ≤ s.length →
      offset + 16 + readBE (pySlice (pySlice s offset (offset + 16)) 14 16) ≤ s.length →
      parseLayer2 s offset
          = (pySlice s offset (offset + 16),
              pySlice s (offset + 16)
                (offset + 16 + readBE (pySlice (pySlice s offset (offset + 16)) 14 16)))
            :: parseLayer2 s
                (offset + 16 + readBE (pySlice (pySlice s offset (offset + 16)) 14 16))
        ∧ (pySlice s (offset + 16)
            (offset + 16 + readBE (pySlice (pySlice s offset (offset + 16)) 14 16))).length
            = readBE (pySlice (pySlice s offset (offset + 16)) 14 16))
    ∧ (∀ s offset, offset + 8 ≤ s.length →
      offset + 8 + readBE (pySlice (pySlice s offset (offset + 8)) 4 8) ≤ s.length →
      parseLayer3 s offset
          = (pySlice s offset (offset + 8),
              pySlice s (offset + 8)
                (offset + 8 + readBE (pySlice (pySlice s offset (offset + 8)) 4 8)))
            :: parseLayer3 s
                (offset + 8 + readBE (pySlice (pySlice s offset (offset + 8)) 4 8))
        ∧ (pySlice s (offset + 8)
            (offset + 8 + readBE (pySlice (pySlice s offset (offset + 8)) 4 8))).length
            = readBE (pySlice (pySlice s offset (offset + 8)) 4 8))
    ∧ (∀ s offset, offset + 4 ≤ s.length →
      offset + 4 + readBE (pySlice (pySlice s offset (offset + 4)) 2 4) ≤ s.length →
      parseLayer4 s offset
          = (pySlice s offset (offset + 4),
              pySlice s (offset + 4)
                (offset + 4 + readBE (pySlice (pySlice s offset (offset + 4)) 2 4)))
            :: parseLayer4 s
                (offset + 4 + readBE (pySlice (pySlice s offset (offset + 4)) 2 4))
        ∧ (pySlice s (offset + 4)
            (offset + 4 + readBE (pySlice (pySlice s offset (offset + 4)) 2 4))).length
            = readBE (pySlice (pySlice s offset (offset + 4)) 2 4)) := by
  refine ⟨rfl, ?_, ?_, ?_, ?_⟩
  · intro gz s offset hg hfit
    refine ⟨?_, by rw [pySlice_length]; omega⟩
    rw [parseLayer1Spec_step gz s offset, if_pos hg]
  · intro s offset hg hfit
    refine ⟨?_, by rw [pySlice_length]; omega⟩
    rw [parseLayer2_step s offset, if_pos hg]
  · intro s offset hg hfit
    refine ⟨?_, by rw [pySlice_length]; omega⟩
    rw [parseLayer3_step s offset, if_pos hg]
  · intro s offset hg hfit
    refine ⟨?_, by rw [pySlice_length]; omega⟩
    rw [parseLayer4_step s offset, if_pos hg]

/-- C3 witnessed at one concrete fitting record per layer (the L1 part at
the intended decoder `parseLayer1Spec`; the code's `parse_layer1` raises at
the same buffer, per the theorem's first conjunct). -/
theorem c3_witness :
    ((0 + 35 ≤ c3buf1.length)
      ∧ (0 + 35 + readBE (pySlice (pySlice c3buf1 0 (0 + 35)) 31 35) ≤ c3buf1.length)
      ∧ (parseLayer1Spec gz0 c3buf1 0
            = ((pySlice c3buf1 0 (0 + 35)).take 18,
                gz0 (pySlice c3buf1 (0 + 35)
                  (0 + 35 + readBE (pySlice (pySlice c3buf1 0 (0 + 35)) 31 35))))
              :: parseLayer1Spec gz0 c3buf1
                  (0 + 35 + readBE (pySlice (pySlice c3buf1 0 (0 + 35)) 31 35))
          ∧ (pySlice c3buf1 (0 + 35)
              (0 + 35 + readBE (pySlice (pySlice c3buf1 0 (0 + 35)) 31 35))).length
              = readBE (pySlice (pySlice c3buf1 0 (0 + 35)) 31 35)))
    ∧ ((0 + 16 ≤ c3buf2.length)
      ∧ (0 + 16 + readBE (pySlice (pySlice c3buf2 0 (0 + 16)) 14 16) ≤ c3buf2.length)
      ∧ (parseLayer2 c3buf2 0
            = (pySlice c3buf2 0 (0 + 16),
                pySlice c3buf2 (0 + 16)
                  (0 + 16 + readBE (pySlice (pySlice c3buf2 0 (0 + 16)) 14 16)))
              :: parseLayer2 c3buf2
                  (0 + 16 + readBE (pySlice (pySlice c3buf2 0 (0 + 16)) 14 16))
          ∧ (pySlice c3buf2 (0 + 16)
              (0 + 16 + readBE (pySlice (pySlice c3buf2 0 (0 + 16)) 14 16))).length
              = readBE (pySlice (pySlice c3buf2 0 (0 + 16)) 14 16)))
    ∧ ((0 + 8 ≤ c3buf3.length)
      ∧ (0 + 8 + readBE (pySlice (pySlice c3buf3 0 (0 + 8)) 4 8) ≤ c3buf3.length)
      ∧ (parseLayer3 c3buf3 0
            = (pySlice c3buf3 0 (0 + 8),
                pySlice c3buf3 (0 + 8)
                  (0 + 8 + readBE (pySlice (pySlice c3buf3 0 (0 + 8)) 4 8)))
              :: parseLayer3 c3buf3
                  (0 + 8 + readBE (pySlice (pySlice c3buf3 0 (0 + 8)) 4 8))
          ∧ (pySlice c3buf3 (0 + 8)
              (0 + 8 + readBE (pySlice (pySlice c3buf3 0 (0 + 8)) 4 8))).length
              = readBE (pySlice (pySlice c3buf3 0 (0 + 8)) 4 8)))
    ∧ ((0 + 4 ≤ c3buf4.length)
      ∧ (0 + 4 + readBE (pySlice (pySlice c3buf4 0 (0 + 4)) 2 4) ≤ c3buf4.length)
      ∧ (parseLayer4 c3buf4 0
            = (pySlice c3buf4 0 (0 + 4),
                pySlice c3buf4 (0 + 4)
                  (0 + 4 + readBE (pySlice (pySlice c3buf4 0 (0 + 4)) 2 4)))
              :: parseLayer4 c3buf4
                  (0 + 4 + readBE (pySlice (pySlice c3buf4 0 (0 + 4)) 2 4))
          ∧ (pySlice c3buf4 (0 + 4)
              (0 + 4 + readBE (pySlice (pySlice c3buf4 0 (0 + 4)) 2 4))).length
              = readBE (pySlice (pySlice c3buf4 0 (0 + 4)) 2 4))) :=
  ⟨⟨by decide, by decide,
      c3_declared_length_and_next_offset.2.1 gz0 c3buf1 0 (by decide) (by decide)⟩,
    ⟨by decide, by decide,
      c3_declared_length_and_next_offset.2.2.1 c3buf2 0 (by decide) (by decide)⟩,
    ⟨by decide, by decide,
      c3_declared_length_and_next_offset.2.2.2.1 c3buf3 0 (by decide) (by decide)⟩,
    ⟨by decide, by decide,
      c3_declared_length_and_next_offset.2.2.2.2 c3buf4 0 (by decide) (by decide)⟩⟩

theorem parseFramed_count (hs lo lw : Nat) (hhs : 0 < hs) :
    ∀ fuel s offset, s.length + 1 ≤ fuel + offset →
      (parseFramed hs lo lw fuel s offset).length * hs ≤ s.length - offset := by
  intro fuel
  induction fuel with
  | zero =>
    intro s offset h
    show ([] : List (List Nat × List Nat)).length * hs ≤ s.length - offset
    simp
  | succ n ih =>
    intro s offset h
    simp only [parseFramed]
    by_cases hg : offset + hs ≤ s.length
    · rw [if_pos hg]
      have hhl : ¬ (pySlice s offset (offset + hs)).length < hs := by
        rw [pySlice_length]; omega
      rw [if_neg hhl]
      rw [List.length_cons, Nat.succ_mul]
      have ih' := ih s
        (offset + hs + readBE (pySlice (pySlice s offset (offset + hs)) lo (lo + lw)))
        (by omega)
      set K := (parseFramed hs lo lw n s
        (offset + hs + readBE (pySlice (pySlice s offset (offset + hs)) lo (lo + lw)))).length * hs
        with hK
      omega
    · rw [if_neg hg]
      simp

/-- C9: every layer decoder terminates on every finite input span. For
L2/L3/L4 each yielded record advances the scan offset by at least the
layer's fixed header size (16/8/4), so the number of records is bounded by
the span length divided by the header size: length of output times header
size never exceeds the bytes available past the starting offset. L1
terminates immediately on every span — it ends cleanly when no complete
header fits and raises `AttributeError` at the first complete header, so
the records it yields before ending or raising number zero and satisfy the
same bound with header size 35. -/
theorem c9_decoders_finite_output :
    (∀ s offset,
        (yielded (parseLayer1 s offset)).length * 35 ≤ s.length - offset)
      ∧ (∀ s offset, (parseLayer2 s offset).length * 16 ≤ s.length - offset)
      ∧ (∀ s offset, (parseLayer3 s offset).length * 8 ≤ s.length - offset)
      ∧ (∀ s offset, (parseLayer4 s offset).length * 4 ≤ s.length - offset) := by
  refine ⟨?_, ?_, ?_, ?_⟩
  · intro s offset
    unfold parseLayer1
    by_cases h : offset + 35 ≤ s.length
    · rw [if_pos h]
      simp [yielded]
    · rw [if_neg h]
      simp [yielded]
  · intro s offset
    exact parseFramed_count 16 14 2 (by norm_num) (s.length + 1) s offset (by omega)
  · intro s offset
    exact parseFramed_count 8 4 4 (by norm_num) (s.length + 1) s offset (by omega)
  · intro s offset
    exact parseFramed_count 4 2 2 (by norm_num) (s.length + 1) s offset (by omega)

/-- C4: the claim says the L1 decoder yields, for every complete L1 record,
a source identifier equal to the first 18 bytes of its 35-byte header, as
an ASCII byte string of length exactly 18. The code never yields one: on a
buffer holding a complete 35-byte header — here the 35-byte zero buffer —
`parse_layer1` raises `AttributeError` at `header[:18].encode("ascii")`
(line 50, a memoryview slice has no `encode` method) before its first
yield. The intended decoding (`parseLayer1Spec`, spec section 4.2) yields
on the same buffer exactly one record whose source identifier is the first
18 header bytes and has length 18. -/
theorem c4_l1_raises_instead_of_yielding_source_id :
    parseLayer1 (List.replicate 35 0) 0 = Except.error Err.attributeError
      ∧ (parseLayer1Spec gz0 (List.replicate 35 0) 0).map
          (fun p => (p.1, p.1.length))
          = [(List.replicate 18 0, 18)] :=
  ⟨rfl, by decide⟩

theorem flatMap_reportStep_filter (rs : List (FPath × Except Err FPath)) :
    (rs.flatMap reportStep).filter isFileReport = rs.map reportOf := by
  induction rs with
  | nil => rfl
  | cons fr t ih =>
    rw [List.flatMap_cons, List.filter_append, ih, List.map_cons]
    rcases fr with ⟨f, r⟩
    cases r <;> simp [reportStep, reportOf, isFileReport]

theorem fileReports_eq_map (rs : List (FPath × Except Err FPath)) :
    fileReports rs = rs.map reportOf := by
  unfold fileReports processDirectory
  rw [List.filter_append, List.filter_append]
  have h1 : (if rs.isEmpty then [Event.noFilesMsg] else []).filter isFileReport = [] := by
    by_cases h : rs.isEmpty <;> simp [h, isFileReport]
  have h2 : [Event.closeBar].filter isFileReport = [] := rfl
  rw [h1, h2, List.nil_append, List.append_nil, flatMap_reportStep_filter]

/-- C7: in a directory run, every submitted file receives exactly one
completion report, and a file whose processing raised an error is reported
as that single file's failure without aborting the run: the files before
and after it in completion order still receive their own reports. -/
theorem c7_per_file_failure_kept_local :
    (∀ rs : List (FPath × Except Err FPath), (fileReports rs).length = rs.length)
      ∧ (∀ (pre : List (FPath × Except Err FPath)) (f : FPath) (e : Err)
          (post : List (FPath × Except Err FPath)),
          fileReports (pre ++ (f, Except.error e) :: post)
            = fileReports pre ++ Event.failMsg f e :: fileReports post) := by
  constructor
  · intro rs
    rw [fileReports_eq_map, List.length_map]
  · intro pre f e post
    rw [fileReports_eq_map, fileReports_eq_map, fileReports_eq_map,
      List.map_append, List.map_cons]
    rfl

theorem flatMap_reportStep_countP (rs : List (FPath × Except Err FPath)) :
    (rs.flatMap reportStep).countP isProgress = rs.countP succeeded := by
  induction rs with
  | nil => rfl
  | cons fr t ih =>
    rw [List.flatMap_cons, List.countP_append, List.countP_cons, ih]
    rcases fr with ⟨f, r⟩
    cases r with
    | error e => simp [reportStep, isProgress, succeeded]
    | ok out =>
      simp [reportStep, isProgress, succeeded]
      omega

/-- C8: the claim says the progress report advances once per completed file
regardless of outcome. It does not: `pbar.update(1)` sits inside the `try`
before the success print, so it runs only when `future.result()` returned
normally. The number of progress ticks equals the number of successful
files, and a run whose single file failed ticks zero times, not once. -/
theorem c8_progress_skipped_on_failure :
    (∀ rs : List (FPath × Except Err FPath),
        (processDirectory rs).countP isProgress = rs.countP succeeded)
      ∧ (processDirectory [(pIn, Except.error Err.decodeError)]).countP isProgress = 0 := by
  constructor
  · intro rs
    unfold processDirectory
    rw [List.countP_append, List.countP_append]
    have h1 : (if rs.isEmpty then [Event.noFilesMsg] else []).countP isProgress = 0 := by
      by_cases h : rs.isEmpty <;> simp [h, isProgress]
    have h2 : [Event.closeBar].countP isProgress = 0 := rfl
    rw [h1, h2, flatMap_reportStep_countP]
    omega
  · decide

/-- C5: the claim says the mapping and descriptor are released on every
exit path, including failing ones. They are not: `mm_view.release()` and
`mm.close()` are the last statements of the success path, with no
try/finally, so any propagated exception — the extractor's AttributeError,
a decode failure, or, as on this concrete run, a parquet write that raises
an I/O error on a file that mapped successfully — becomes the file's
failure with the mapping never released. -/
theorem c5_mapping_leaked_on_write_failure :
    (processFile dec0 ["in"] ["out"] pIn (Except.ok []) wFail).released = false
      ∧ (processFile dec0 ["in"] ["out"] pIn (Except.ok []) wFail).result
          = Except.error Err.ioError :=
  ⟨rfl, rfl⟩

/-- C10: if frame extraction completes without raising and yields zero
frames for a successfully mapped buffer (for example the empty buffer, or
any buffer shorter than 35 bytes) and the write itself succeeds, then
`process_file` completes successfully: it writes a zero-row output at the
computed output path (output root ++ input-relative directories, extension
replaced by parquet), returns that path, and releases the mapping. -/
theorem c10_zero_frames_success {ρ : Type}
    (decode : List Nat → (List Nat × List Nat) → Except Err (List ρ))
    (inputDir outputDir : List String) (filePath : FPath) (buf : List Nat)
    (writeRes : FPath → List ρ → Except Err Unit)
    (hext : extractFrames buf = Except.ok [])
    (hw : writeRes (outputFileFor inputDir outputDir filePath) [] = Except.ok ()) :
    (processFile decode inputDir outputDir filePath (Except.ok buf) writeRes).result
        = Except.ok (outputFileFor inputDir outputDir filePath)
      ∧ (processFile decode inputDir outputDir filePath (Except.ok buf) writeRes).written
          = some (outputFileFor inputDir outputDir filePath, ([] : List ρ))
      ∧ (processFile decode inputDir outputDir filePath (Except.ok buf) writeRes).released
          = true := by
  have hc : collectRows decode ([] : List (List Nat × (List Nat × List Nat)))
      = Except.ok ([] : List ρ) := rfl
  simp only [processFile, hext, hc, hw]
  exact ⟨trivial, trivial, trivial⟩

/-- C10 witnessed at the empty buffer with a succeeding writer. -/
theorem c10_witness :
    (extractFrames [] = Except.ok [])
      ∧ (wOk (outputFileFor ["in"] ["out"] pIn) [] = Except.ok ())
      ∧ ((processFile dec0 ["in"] ["out"] pIn (Except.ok []) wOk).result
            = Except.ok (outputFileFor ["in"] ["out"] pIn)
        ∧ (processFile dec0 ["in"] ["out"] pIn (Except.ok []) wOk).written
            = some (outputFileFor ["in"] ["out"] pIn, ([] : List Nat))
        ∧ (processFile dec0 ["in"] ["out"] pIn (Except.ok []) wOk).released
            = true) :=
  ⟨rfl, rfl, c10_zero_frames_success dec0 ["in"] ["out"] pIn [] wOk rfl rfl⟩
